import Mathlib

/-!
Shallow embedding of the `ximageredux` X11 window-capture engine
(`src/ximageredux/imp.rs`, `src/lib.rs`).

The engine's shared, mutex-guarded record `State` is modelled as a plain
structure; the X server is modelled by an `Env` record holding the replies
the server would give to the round-trips issued during one call.  Each
embedded operation returns, besides its result, the updated state, the
list of host-visible events it emitted (property notifications and the
`resize` signal) and the list of protocol round-trips it performed.
Rust `panic!`/`unwrap()`-on-`None`/`todo!()` aborts are modelled by an
explicit `panic` constructor of the result types, distinct from the
`anyhow`/`FlowError` error constructors.
-/

namespace XImageRedux

/-- Byte order, standing for `G_LITTLE_ENDIAN` / `G_BIG_ENDIAN` and for
xcb's `ImageOrder::LsbFirst` / `ImageOrder::MsbFirst`. -/
inductive Endianness
  | little
  | big
deriving DecidableEq, Repr

/-- `struct Size { width: u16, height: u16 }` from `imp.rs`. -/
structure Size where
  width : Nat
  height : Nat
deriving DecidableEq, Repr

/-- `struct Position { x: i16, y: i16 }` from `imp.rs`. -/
structure Position where
  x : Int
  y : Int
deriving DecidableEq, Repr

/-- `enum WindowVisibility { Unknown, Visible, Hidden }` from `lib.rs`;
`Unknown` is the `#[default]`. -/
inductive WindowVisibility
  | Unknown
  | Visible
  | Hidden
deriving DecidableEq, Repr

/-- A produced `gst::Buffer`: the image bytes plus the duration tag set by
`get_frame` (`buf.set_duration(... frame_duration.as_millis() ...)`),
in milliseconds. -/
structure Frame where
  data : List Nat
  duration : Nat
deriving DecidableEq, Repr

/-- The engine's shared `struct State` from `imp.rs`.  The xcb connection
handle carries no data relevant to the claims, so presence is modelled by
`Option Unit`; likewise the watcher `JoinHandle`.  `frame_duration` is the
`std::time::Duration` in whole milliseconds (the code only ever builds it
with `Duration::from_millis` and reads it with `as_millis`).
`last_frame_time` is the `gst::ClockTime` in nanoseconds.
The `derivative(Default)` attributes give the listed defaults, with
`needs_size_update` defaulting to `true`. -/
structure State where
  connection : Option Unit := none
  screen_num : Option Int := none
  xid : Option Nat := none
  show_cursor : Bool := false
  needs_size_update : Bool := true
  position : Option Position := none
  size : Option Size := none
  frame_duration : Nat := 0
  last_frame_time : Option Nat := none
  resize_run : Option Bool := none
  resize_handle : Option Unit := none
  last_frame : Option Frame := none
  visibility : WindowVisibility := .Unknown
deriving DecidableEq, Repr

/-- Reply to the `GetGeometry` round-trip. -/
structure GeomReply where
  x : Int
  y : Int
  width : Nat
  height : Nat
deriving DecidableEq, Repr

/-- Reply to the `QueryPointer` round-trip. -/
structure PointerReply where
  same_screen : Bool
  root_x : Int
  root_y : Int
deriving DecidableEq, Repr

/-- The X server side of one engine call: the replies the server would give
to each kind of round-trip the call may issue.  `Except.error` models a
failed `wait_for_reply`.  `negotiate_ok` models the outcome of the
base-class `self.negotiate()` call made by `create` after a size update. -/
structure Env where
  geometry : Except String GeomReply
  property_values : Except String (List Nat)
  image_data : Except String (List Nat)
  negotiate_ok : Except String Unit
  pointer : Except String PointerReply

/-- Result of a fallible engine-internal operation: Rust `Result` plus an
explicit `panic` outcome for `unwrap()` on `None` and friends. -/
inductive Res (α : Type)
  | panic
  | err (msg : String)
  | ok (v : α)
deriving DecidableEq, Repr

/-- Host-visible events: `set_property("width"/"height"/"visibility", _)`
notifications and the `resize` signal emission. -/
inductive Ev
  | notifyWidth (w : Nat)
  | notifyHeight (h : Nat)
  | resize (w h : Nat)
  | notifyVisibility (v : WindowVisibility)
deriving DecidableEq, Repr

/-- Protocol round-trips issued to the display server. -/
inductive Op
  | getGeometry
  | getProperty
  | getImage
  | queryPointer
deriving DecidableEq, Repr

/-- Result of `get_connection`. -/
inductive ConnRes
  | err (msg : String)
  | panic
  | ok (xid : Nat)
deriving DecidableEq, Repr

/-- `ConnRes.isErr`: whether `get_connection` returned the error case. -/
def ConnRes.isErr : ConnRes → Bool
  | .err _ => true
  | _ => false

/-- Embedding of `get_connection` (`imp.rs`): bails with "XID is not set!"
when `state.xid` is `None`; otherwise returns
`state.connection.as_ref().unwrap()` together with the xid — the `unwrap`
panics when the connection is absent. -/
def get_connection (s : State) : ConnRes :=
  match s.xid with
  | none => .err "XID is not set!"
  | some xid =>
    match s.connection with
    | none => .panic
    | some _ => .ok xid

/-- Embedding of `XImageRedux::get_size`: one `GetGeometry` round-trip;
on success also updates the cached `position` and returns the reply's
width/height as a `Size`. -/
def get_size (s : State) (env : Env) : Res Size × State × List Op :=
  match get_connection s with
  | .err m => (.err m, s, [])
  | .panic => (.panic, s, [])
  | .ok _xid =>
    match env.geometry with
    | .error _ => (.err "Failed to wait for X reply", s, [.getGeometry])
    | .ok reply =>
      (.ok ⟨reply.width, reply.height⟩,
       {s with position := some ⟨reply.x, reply.y⟩},
       [.getGeometry])

/-- Embedding of `XImageRedux::get_window_visibility`: one `GetProperty`
round-trip; a reply containing the atom value 324 ("Hide") is classified
`Hidden`, any other successful reply `Visible`, and a reply failure is an
error (`bail!`). -/
def get_window_visibility (s : State) (env : Env) :
    Res WindowVisibility × List Op :=
  match get_connection s with
  | .err m => (.err m, [])
  | .panic => (.panic, [])
  | .ok _xid =>
    match env.property_values with
    | .error m => (.err m, [.getProperty])
    | .ok vals =>
      if vals.any (fun v => v == 324) then (.ok .Hidden, [.getProperty])
      else (.ok .Visible, [.getProperty])

/-- The notification block of `update_size_if_needed`: with `old_size` the
previously cached size and `new` the freshly queried one, the width and
height property notifications fire for exactly the dimensions that
changed, and one `resize` signal fires, whenever the cached size was
absent or differs from the new one.  The source's
`old_size.is_none() || old_size.unwrap() != new` guard (and the inner
per-dimension `is_none() ||` guards) are rendered as the outer match on
`old_size`. -/
def size_change_events (old_size : Option Size) (new : Size) : List Ev :=
  match old_size with
  | none =>
    [Ev.notifyWidth new.width, Ev.notifyHeight new.height,
     Ev.resize new.width new.height]
  | some old =>
    if old = new then []
    else
      (if new.width = old.width then [] else [Ev.notifyWidth new.width])
      ++ (if new.height = old.height then [] else [Ev.notifyHeight new.height])
      ++ [Ev.resize new.width new.height]

/-- Embedding of `XImageRedux::update_size_if_needed`: read-and-clear the
`needs_size_update` flag (also forced when no size is cached yet); when
set, re-query geometry, emit the `size_change_events` notifications,
store the new size, then re-query visibility and notify when it
changed.  Returns whether an update was performed. -/
def update_size_if_needed (s : State) (env : Env) :
    Res Bool × State × List Ev × List Op :=
  let should_update := s.needs_size_update || s.size.isNone
  let s := if should_update then {s with needs_size_update := false} else s
  if should_update then
    match get_size s env with
    | (.err m, s, ops) => (.err m, s, [], ops)
    | (.panic, s, ops) => (.panic, s, [], ops)
    | (.ok new, s, ops) =>
      let old_size := s.size
      let size_events := size_change_events old_size new
      let s := {s with size := some new}
      match get_window_visibility s env with
      | (.err m, ops2) => (.err m, s, size_events, ops ++ ops2)
      | (.panic, ops2) => (.panic, s, size_events, ops ++ ops2)
      | (.ok v, ops2) =>
        if v = s.visibility then (.ok true, s, size_events, ops ++ ops2)
        else
          (.ok true, {s with visibility := v},
           size_events ++ [Ev.notifyVisibility v], ops ++ ops2)
  else (.ok false, s, [], [])

/-- Embedding of `XImageRedux::get_frame`: first re-runs
`update_size_if_needed`, then issues the `GetImage` round-trip over the
full cached size (`state.size.as_ref().unwrap()` — a panic when no size is
cached) and tags the buffer with the current `frame_duration` in
milliseconds. -/
def get_frame (s : State) (env : Env) :
    Res Frame × State × List Ev × List Op :=
  match update_size_if_needed s env with
  | (.err m, s, ev, ops) => (.err m, s, ev, ops)
  | (.panic, s, ev, ops) => (.panic, s, ev, ops)
  | (.ok _did, s, ev, ops) =>
    match get_connection s with
    | .err m => (.err m, s, ev, ops)
    | .panic => (.panic, s, ev, ops)
    | .ok _xid =>
      match s.size with
      | none => (.panic, s, ev, ops)
      | some _sz =>
        match env.image_data with
        | .error _ =>
          (.err "Failed to wait for X reply", s, ev, ops ++ [Op.getImage])
        | .ok data =>
          (.ok ⟨data, s.frame_duration⟩, s, ev, ops ++ [Op.getImage])

/-- The test `reply.same_screen() && bounds_match` of
`cursor_is_in_bounds`: the pointer is on the same screen and its
root-relative coordinates fall inside the window rectangle given by the
cached position and size. -/
def cursorHit (position : Position) (size : Size) (reply : PointerReply) :
    Bool :=
  reply.same_screen &&
    (decide (position.x ≤ reply.root_x) && decide (position.y ≤ reply.root_y)
     && decide (reply.root_x < position.x + (size.width : Int))
     && decide (reply.root_y < position.y + (size.height : Int)))

/-- Embedding of `XImageRedux::cursor_is_in_bounds`: bails when position or
size is not cached; otherwise one `QueryPointer` round-trip; the
`i16::try_from(size.width).unwrap()` conversions panic above 32767; returns
the window-relative pointer position when the pointer hits the window. -/
def cursor_is_in_bounds (s : State) (env : Env) :
    Res (Option Position) × List Op :=
  match get_connection s with
  | .err m => (.err m, [])
  | .panic => (.panic, [])
  | .ok _xid =>
    if s.position.isNone || s.size.isNone then
      (.err "No position/size set!", [])
    else
      match env.pointer with
      | .error _ => (.err "Failed to wait for X reply", [.queryPointer])
      | .ok reply =>
        let position := s.position.getD ⟨0, 0⟩
        let size := s.size.getD ⟨0, 0⟩
        if size.width > 32767 || size.height > 32767 then
          (.panic, [.queryPointer])
        else if cursorHit position size reply then
          (.ok (some ⟨reply.root_x - position.x, reply.root_y - position.y⟩),
           [.queryPointer])
        else (.ok none, [.queryPointer])

/-- Outcome of a `create` (produce) call: `Ok(CreateSuccess::NewBuffer _)`,
`Err(FlowError)`, or an abort (panic / `todo!()`). -/
inductive CreateRes
  | newBuffer (f : Frame)
  | flowError
  | panic
deriving DecidableEq, Repr

/-- Full outcome of one `create` call: result, post state, events emitted,
protocol round-trips performed. -/
structure CreateOut where
  res : CreateRes
  state : State
  events : List Ev
  ops : List Op
deriving Repr

/-- Embedding of `PushSrcImpl::create`:
1. throttle block — only when `last_frame_time` is `Some`; note the code
   compares `gst::ClockTime::default() - last_time` (the `default()` clock
   time is zero, and gstreamer's `ClockTime` subtraction panics on
   underflow, so any positive stored time aborts) against the frame
   duration in nanoseconds, re-arming with `ClockTime::default()` or
   returning the cached `last_frame`;
2. `update_size_if_needed`, renegotiating (and failing the pull on a
   renegotiation error) when an update occurred, failing the pull on an
   update error;
3. `get_frame`, falling back to the cached `last_frame` when the fetch
   errs (or `FlowError` when there is none);
4. when `show_cursor` is set, `cursor_is_in_bounds`: an in-bounds pointer
   reaches the `todo!()` stub (an abort), a pointer-query error fails the
   pull;
5. caches the produced frame as `last_frame` and returns it. -/
def create (s : State) (env : Env) : CreateOut :=
  let thr : Option CreateRes × State :=
    match s.last_frame_time with
    | some last_time =>
      if last_time > 0 then (some CreateRes.panic, s)
      else if s.frame_duration * 1000000 ≤ 0 - last_time then
        (none, {s with last_frame_time := some 0})
      else
        match s.last_frame with
        | some buf => (some (CreateRes.newBuffer buf), s)
        | none => (none, s)
    | none => (none, s)
  match thr with
  | (some r, s) => ⟨r, s, [], []⟩
  | (none, s) =>
    match update_size_if_needed s env with
    | (.err _m, s, ev, ops) => ⟨.flowError, s, ev, ops⟩
    | (.panic, s, ev, ops) => ⟨.panic, s, ev, ops⟩
    | (.ok did, s, ev, ops) =>
      if did && !(match env.negotiate_ok with | .ok _ => true | .error _ => false) then
        ⟨.flowError, s, ev, ops⟩
      else
        match get_frame s env with
        | (.panic, s, ev2, ops2) => ⟨.panic, s, ev ++ ev2, ops ++ ops2⟩
        | (.err _m, s, ev2, ops2) =>
          match s.last_frame with
          | some buf => ⟨.newBuffer buf, s, ev ++ ev2, ops ++ ops2⟩
          | none => ⟨.flowError, s, ev ++ ev2, ops ++ ops2⟩
        | (.ok frame, s, ev2, ops2) =>
          if s.show_cursor then
            match cursor_is_in_bounds s env with
            | (.ok (some _pos), ops3) =>
              ⟨.panic, s, ev ++ ev2, ops ++ ops2 ++ ops3⟩
            | (.ok none, ops3) =>
              ⟨.newBuffer frame, {s with last_frame := some frame},
               ev ++ ev2, ops ++ ops2 ++ ops3⟩
            | (.err _m, ops3) =>
              ⟨.flowError, s, ev ++ ev2, ops ++ ops2 ++ ops3⟩
            | (.panic, ops3) =>
              ⟨.panic, s, ev ++ ev2, ops ++ ops2 ++ ops3⟩
          else
            ⟨.newBuffer frame, {s with last_frame := some frame},
             ev ++ ev2, ops ++ ops2⟩

/-- `u32::to_be` on a little-endian host: swap the four bytes of a 32-bit
value. -/
def byteSwap32 (x : Nat) : Nat :=
  (x % 256) * 16777216 + (x / 256 % 256) * 65536
    + (x / 65536 % 256) * 256 + (x / 16777216 % 256)

/-- Bitwise complement (`!`) on `u32`. -/
def not32 (x : Nat) : Nat := 4294967295 ^^^ x

/-- The display-derived inputs of `get_video_format`: the setup's
`bitmap_format_bit_order`, the window depth from the geometry reply, the
bits-per-pixel looked up from the pixmap formats for that depth, and the
raw red/green/blue masks of the root visual. -/
structure FormatIn where
  bit_order : Endianness
  depth : Nat
  bpp : Nat
  red_mask : Nat
  green_mask : Nat
  blue_mask : Nat
deriving DecidableEq, Repr

/-- The descriptor handed to `gst_video_format_from_masks`. -/
structure FormatOut where
  depth : Nat
  bpp : Nat
  endianness : Endianness
  red_mask : Nat
  green_mask : Nat
  blue_mask : Nat
  alpha_mask : Nat
deriving DecidableEq, Repr

/-- Embedding of the mask/endianness computation of
`XImageRedux::get_video_format` (`imp.rs`): when bpp is 24 or 32 and the
native order is little-endian, force big-endian and byte-swap
(`u32::to_be` on the little-endian host) the three color masks, shifting
each right by 8 at 24 bpp; the alpha mask is the complement of the
combined RGB mask at 32 bpp and zero otherwise. -/
def get_video_format (inp : FormatIn) : FormatOut :=
  let endianness := inp.bit_order
  if (inp.bpp = 24 ∨ inp.bpp = 32) ∧ endianness = Endianness.little then
    let r := byteSwap32 inp.red_mask
    let g := byteSwap32 inp.green_mask
    let b := byteSwap32 inp.blue_mask
    let r := if inp.bpp = 24 then r >>> 8 else r
    let g := if inp.bpp = 24 then g >>> 8 else g
    let b := if inp.bpp = 24 then b >>> 8 else b
    let alpha := if inp.bpp = 32 then not32 (r ||| g ||| b) else 0
    ⟨inp.depth, inp.bpp, Endianness.big, r, g, b, alpha⟩
  else
    let alpha :=
      if inp.bpp = 32 then
        not32 (inp.red_mask ||| inp.green_mask ||| inp.blue_mask)
      else 0
    ⟨inp.depth, inp.bpp, endianness,
     inp.red_mask, inp.green_mask, inp.blue_mask, alpha⟩

/-- Result of `set_caps`: `LoggableError`, an abort (the `u64` division by
a zero numerator panics), or success with the updated state. -/
inductive SetCapsRes
  | err (msg : String)
  | panic
  | ok (s : State)
deriving DecidableEq, Repr

/-- `SetCapsRes.isErr`: whether `set_caps` returned the error case. -/
def SetCapsRes.isErr : SetCapsRes → Bool
  | .err _ => true
  | _ => false

/-- Embedding of `BaseSrcImpl::set_caps`; the caps are modelled by their
negotiated framerate fraction `numer/denom`.  Fails when no connection is
open ("Not ready!"); otherwise stores
`Duration::from_millis(1000 * denom as u64 / numer as u64)` — the `u64`
division panics when `numer` is zero. -/
def set_caps (s : State) (numer denom : Nat) : SetCapsRes :=
  match s.connection with
  | none => .err "Not ready!"
  | some _ =>
    if numer = 0 then .panic
    else .ok {s with frame_duration := 1000 * denom / numer}

/-- The framerate range advertised by `pad_templates`:
`FractionRange::new(Fraction::new(0, 1), Fraction::new(i32::MAX, 1))`,
as (numerator, denominator) endpoints. -/
def pad_template_framerate_lo : Nat × Nat := (0, 1)

/-- Upper endpoint of the advertised framerate range (`i32::MAX / 1`). -/
def pad_template_framerate_hi : Nat × Nat := (2147483647, 1)

/-- Whether the fraction `numer/denom` lies in the advertised template
framerate range (by cross-multiplication). -/
def inTemplateFramerateRange (numer denom : Nat) : Bool :=
  decide (pad_template_framerate_lo.1 * denom ≤ numer * pad_template_framerate_lo.2)
    && decide (numer * pad_template_framerate_hi.2 ≤ pad_template_framerate_hi.1 * denom)

/-- X events the watcher thread classifies:
`ConfigureNotify` (structural change carrying the window's dimensions),
`PropertyNotify`, and everything else. -/
inductive XEvent
  | configureNotify (width height : Nat)
  | propertyNotify
  | otherEvent
deriving DecidableEq, Repr

/-- The watcher loop's local `last_size` plus the shared
`needs_size_update` (dirty) flag it writes. -/
structure WatcherState where
  last_size : Option Size
  dirty : Bool
deriving DecidableEq, Repr

/-- Embedding of one iteration of the event-watcher loop spawned in
`start` (`imp.rs`): on `ConfigureNotify`, when `last_size` is already set
and equals the carried size the event is skipped (`continue`); when
`last_size` is unset it is initialised to the carried size (this is the
only write to `last_size` in the source) and the dirty flag is set; when
the sizes differ the dirty flag is set (without updating `last_size`).
On `PropertyNotify` the dirty flag is set unconditionally. -/
def watcher_step (w : WatcherState) (e : XEvent) : WatcherState :=
  match e with
  | .configureNotify width height =>
    let size : Size := ⟨width, height⟩
    match w.last_size with
    | some ls =>
      if ls = size then w
      else {w with dirty := true}
    | none => {last_size := some size, dirty := true}
  | .propertyNotify => {w with dirty := true}
  | .otherEvent => w

/-- The watcher loop over a sequence of polled events. -/
def watcher_run (w : WatcherState) (evs : List XEvent) : WatcherState :=
  evs.foldl watcher_step w

/-- Embedding of `BaseSrcImpl::stop`: takes the watcher run flag (storing
`false` into the shared atomic), takes and joins the watcher thread
handle, and takes the connection; each `take` leaves `None` behind.  The
only possible abort, `handle.join().unwrap()`, fails only when the watcher
thread itself panicked, which is outside this state model, so `stop` is
total here. -/
def stop (s : State) : State :=
  {s with resize_run := none, resize_handle := none, connection := none}

/-! Counting helpers for the notification-discipline claims. -/

/-- Number of `resize` signal emissions in an event list. -/
def countResize (evs : List Ev) : Nat :=
  evs.countP (fun e => match e with | Ev.resize _ _ => true | _ => false)

/-- Number of width property notifications in an event list. -/
def countWidthNotifs (evs : List Ev) : Nat :=
  evs.countP (fun e => match e with | Ev.notifyWidth _ => true | _ => false)

/-- Number of height property notifications in an event list. -/
def countHeightNotifs (evs : List Ev) : Nat :=
  evs.countP (fun e => match e with | Ev.notifyHeight _ => true | _ => false)

/-! Theorems settling the claims. -/

/-- Claim C9: `stop` is idempotent — after each of two successive calls
the connection is absent, and the watcher run flag and thread handle are
absent; the second call changes nothing at all (and the embedding of
`stop` is a total function, so no panic occurs). -/
theorem stop_idempotent (s : State) :
    (stop s).connection = none
      ∧ (stop s).resize_run = none
      ∧ (stop s).resize_handle = none
      ∧ stop (stop s) = stop s
      ∧ (stop (stop s)).connection = none
      ∧ (stop (stop s)).resize_run = none
      ∧ (stop (stop s)).resize_handle = none :=
  ⟨rfl, rfl, rfl, rfl, rfl, rfl, rfl⟩

/-- Claim C5: for a resolved format with bits-per-pixel 24 or 32 and
native little-endian bit order, `get_video_format` reports big-endian
order, red/green/blue masks byte-swapped relative to the raw visual masks
(with an additional right shift by 8 bits at 24 bpp), and an alpha mask
equal to the bitwise complement of the combined RGB mask at 32 bpp and
zero otherwise. -/
theorem get_video_format_canonicalizes (inp : FormatIn)
    (hb : inp.bpp = 24 ∨ inp.bpp = 32)
    (ho : inp.bit_order = Endianness.little) :
    (get_video_format inp).endianness = Endianness.big
    ∧ (get_video_format inp).red_mask
        = byteSwap32 inp.red_mask >>> (if inp.bpp = 24 then 8 else 0)
    ∧ (get_video_format inp).green_mask
        = byteSwap32 inp.green_mask >>> (if inp.bpp = 24 then 8 else 0)
    ∧ (get_video_format inp).blue_mask
        = byteSwap32 inp.blue_mask >>> (if inp.bpp = 24 then 8 else 0)
    ∧ (get_video_format inp).alpha_mask
        = (if inp.bpp = 32 then
            not32 ((get_video_format inp).red_mask
              ||| (get_video_format inp).green_mask
              ||| (get_video_format inp).blue_mask)
          else 0) := by
  rcases hb with h | h <;> simp [get_video_format, h, ho]

/-- Witness for C5 at 32 bpp, little-endian, with the raw masks
0xff0000/0x00ff00/0x0000ff. -/
theorem get_video_format_canonicalizes_witness :
    (get_video_format ⟨Endianness.little, 24, 32, 16711680, 65280, 255⟩).endianness
      = Endianness.big :=
  (get_video_format_canonicalizes ⟨Endianness.little, 24, 32, 16711680, 65280, 255⟩
    (Or.inr rfl) rfl).1

/-- Engine state with the window id configured but no connection open. -/
def connAbsentState : State := { connection := none, xid := some 42 }

/-- Claim C6 fails as stated: at the concrete state with the window id set
to 42 and the connection absent, `get_connection` aborts
(`connection.as_ref().unwrap()` on `None`) instead of failing with an
error. -/
theorem get_connection_panic_not_error :
    get_connection connAbsentState = ConnRes.panic
      ∧ (get_connection connAbsentState).isErr = false := by
  decide

/-- Claim C6 (amended): every operation requiring a connection and window
id fails with an error whenever the window id is absent (shown for
`get_connection` and for the geometry, visibility and pointer queries,
which all share it); when the id is present but the connection is absent,
`get_connection` panics rather than returning an error; when both are
present it succeeds with the id. -/
theorem get_connection_precondition (s : State) :
    (s.xid = none →
      get_connection s = ConnRes.err "XID is not set!"
      ∧ ∀ env : Env,
          (get_size s env).1 = Res.err "XID is not set!"
          ∧ (get_window_visibility s env).1 = Res.err "XID is not set!"
          ∧ (cursor_is_in_bounds s env).1 = Res.err "XID is not set!")
    ∧ (∀ x, s.xid = some x → s.connection = none →
        get_connection s = ConnRes.panic)
    ∧ (∀ x, s.xid = some x → s.connection ≠ none →
        get_connection s = ConnRes.ok x) := by
  refine ⟨fun h => ?_, fun x hx hc => ?_, fun x hx hc => ?_⟩
  · exact ⟨by simp [get_connection, h],
      fun env => ⟨by simp [get_size, get_connection, h],
        by simp [get_window_visibility, get_connection, h],
        by simp [cursor_is_in_bounds, get_connection, h]⟩⟩
  · simp [get_connection, hx, hc]
  · cases hcc : s.connection with
    | none => exact absurd hcc hc
    | some u => simp [get_connection, hx, hcc]

/-- Witness for the amended C6: with id 42 and an open connection the
accessor succeeds. -/
theorem get_connection_precondition_witness :
    get_connection { connection := some (), xid := some 42 } = ConnRes.ok 42 :=
  (get_connection_precondition { connection := some (), xid := some 42 }).2.2
    42 rfl (by decide)

/-- Claim C7: `set_caps` fails when no connection is open; otherwise, for
a positive numerator, it stores a frame interval of exactly
`1000 * denom / numer` milliseconds (truncating integer division) — in
particular 33 ms for a 30/1 framerate. -/
theorem set_caps_frame_interval (s : State) (numer denom : Nat) :
    (s.connection = none →
      set_caps s numer denom = SetCapsRes.err "Not ready!")
    ∧ (s.connection ≠ none → 0 < numer →
        set_caps s numer denom
          = SetCapsRes.ok {s with frame_duration := 1000 * denom / numer})
    ∧ (s.connection ≠ none →
        set_caps s 30 1 = SetCapsRes.ok {s with frame_duration := 33}) := by
  refine ⟨fun h => by simp [set_caps, h], fun hc hn => ?_, fun hc => ?_⟩
  · cases hcc : s.connection with
    | none => exact absurd hcc hc
    | some u => simp [set_caps, hcc, Nat.pos_iff_ne_zero.mp hn]
  · cases hcc : s.connection with
    | none => exact absurd hcc hc
    | some u => simp [set_caps, hcc]

/-- Witness for C7: a 30/1 framerate on a connected engine yields a 33 ms
frame interval. -/
theorem set_caps_frame_interval_witness :
    set_caps { connection := some (), xid := some 1 } 30 1
      = SetCapsRes.ok
          {({ connection := some (), xid := some 1 } : State) with
            frame_duration := 33} :=
  (set_caps_frame_interval { connection := some (), xid := some 1 } 30 1).2.2
    (by decide)

/-- Claim C10: the advertised pad-template framerate range includes 0/1,
and `set_caps` on a connected engine with a zero framerate numerator
aborts (the `u64` frame-interval division panics on the zero divisor)
instead of returning an error. -/
theorem set_caps_zero_numerator_panics (s : State) (denom : Nat)
    (hc : s.connection ≠ none) :
    inTemplateFramerateRange 0 1 = true
      ∧ set_caps s 0 denom = SetCapsRes.panic := by
  refine ⟨by decide, ?_⟩
  cases hcc : s.connection with
  | none => exact absurd hcc hc
  | some u => simp [set_caps, hcc]

/-- Witness for C10 at a concrete connected state and denominator 1. -/
theorem set_caps_zero_numerator_panics_witness :
    set_caps { connection := some (), xid := some 1 } 0 1
      = SetCapsRes.panic :=
  (set_caps_zero_numerator_panics { connection := some (), xid := some 1 } 1
    (by decide)).2

/-- Claim C4 (code refutation): the watcher compares each structural-change
event against the size carried by the FIRST such event, because
`last_size` is only ever written when it was previously unset.  After
events carrying 100×100 then 200×200 the loop's `last_size` is still
100×100; a further relocation-only event carrying the current 200×200
size — equal to the size of the most recent previous structural-change
event, which the claim says is ignored — is not suppressed: starting from
a cleared dirty flag, it sets the dirty flag. -/
theorem watcher_relocation_not_suppressed :
    watcher_run ⟨none, false⟩
        [XEvent.configureNotify 100 100, XEvent.configureNotify 200 200]
      = ⟨some ⟨100, 100⟩, true⟩
    ∧ watcher_step ⟨some ⟨100, 100⟩, false⟩ (XEvent.configureNotify 200 200)
      = ⟨some ⟨100, 100⟩, true⟩ := by
  decide

/-- Engine state for the throttling scenario: connection open, window id
set, 33 ms configured frame interval (the truncated 30/1 rate). -/
def throttleState : State :=
  { connection := some (), screen_num := some 0, xid := some 1,
    frame_duration := 33 }

/-- Server replies for the first produce of the throttling scenario. -/
def throttleEnvA : Env :=
  { geometry := .ok ⟨0, 0, 640, 480⟩, property_values := .ok [1],
    image_data := .ok [1, 2, 3], negotiate_ok := .ok (),
    pointer := .ok ⟨true, 50, 50⟩ }

/-- Server replies for the second produce of the throttling scenario: the
window contents have changed. -/
def throttleEnvB : Env :=
  { throttleEnvA with image_data := .ok [9, 9, 9] }

/-- Claim C1 (code refutation): after a successful first produce the
last-frame timestamp is still `none` — `create` only re-arms
`last_frame_time` inside the `if let Some(last_time)` branch and nothing
else ever writes it — so a second produce, at any elapsed time and in
particular before the 33 ms interval, performs a new `GetImage` protocol
round-trip and returns the newly fetched frame instead of the cached
one. -/
theorem create_throttle_never_engages :
    (create throttleState throttleEnvA).res
        = CreateRes.newBuffer ⟨[1, 2, 3], 33⟩
    ∧ (create throttleState throttleEnvA).state.last_frame_time = none
    ∧ (create throttleState throttleEnvA).state.last_frame
        = some ⟨[1, 2, 3], 33⟩
    ∧ (create (create throttleState throttleEnvA).state throttleEnvB).res
        = CreateRes.newBuffer ⟨[9, 9, 9], 33⟩
    ∧ (create (create throttleState throttleEnvA).state throttleEnvB).ops
        = [Op.getImage] := by
  decide

/-- Claim C2: when the image-fetch round-trip fails, `create` returns the
cached last frame when one exists (leaving it in place) and fails the
pull with `FlowError` otherwise; in either case the cached last frame is
not replaced.  The hypotheses put the engine in a steady produce state
(connection and id set, geometry already reconciled, the throttle
timestamp in its invariant `none` state) and make the `GetImage`
round-trip fail. -/
theorem create_fetch_failure_fallback (s : State) (env : Env) (x : Nat)
    (sz : Size) (e : String)
    (hx : s.xid = some x) (hc : s.connection = some ())
    (hn : s.needs_size_update = false) (hs : s.size = some sz)
    (ht : s.last_frame_time = none)
    (himg : env.image_data = Except.error e) :
    (∀ f, s.last_frame = some f →
        (create s env).res = CreateRes.newBuffer f
        ∧ (create s env).state.last_frame = some f)
    ∧ (s.last_frame = none → (create s env).res = CreateRes.flowError)
    ∧ (create s env).state.last_frame = s.last_frame := by
  refine ⟨fun f hf => ?_, fun hf => ?_, ?_⟩
  · simp [create, update_size_if_needed, get_frame, get_connection,
      hx, hc, hn, hs, ht, himg, hf]
  · simp [create, update_size_if_needed, get_frame, get_connection,
      hx, hc, hn, hs, ht, himg, hf]
  · cases hlf : s.last_frame <;>
      simp [create, update_size_if_needed, get_frame, get_connection,
        hx, hc, hn, hs, ht, himg, hlf]

/-- Steady produce state with a cached last frame, for the C2 witness. -/
def fallbackState : State :=
  { connection := some (), xid := some 7, needs_size_update := false,
    size := some ⟨640, 480⟩, frame_duration := 33,
    last_frame := some ⟨[1, 2, 3], 33⟩ }

/-- Server replies where the image fetch fails, for the C2 witness. -/
def fallbackEnv : Env :=
  { geometry := .ok ⟨0, 0, 640, 480⟩, property_values := .ok [1],
    image_data := .error "connection reset", negotiate_ok := .ok (),
    pointer := .ok ⟨true, 50, 50⟩ }

/-- Witness for C2: with a cached frame and a failing fetch, `create`
returns the cached frame. -/
theorem create_fetch_failure_fallback_witness :
    (create fallbackState fallbackEnv).res
      = CreateRes.newBuffer ⟨[1, 2, 3], 33⟩ :=
  ((create_fetch_failure_fallback fallbackState fallbackEnv 7 ⟨640, 480⟩
      "connection reset" rfl rfl rfl rfl rfl rfl).1
    ⟨[1, 2, 3], 33⟩ rfl).1

/-- `countResize` distributes over list append. -/
theorem countResize_append (a b : List Ev) :
    countResize (a ++ b) = countResize a + countResize b := by
  simp [countResize, List.countP_append]

/-- `countWidthNotifs` distributes over list append. -/
theorem countWidthNotifs_append (a b : List Ev) :
    countWidthNotifs (a ++ b) = countWidthNotifs a + countWidthNotifs b := by
  simp [countWidthNotifs, List.countP_append]

/-- `countHeightNotifs` distributes over list append. -/
theorem countHeightNotifs_append (a b : List Ev) :
    countHeightNotifs (a ++ b) = countHeightNotifs a + countHeightNotifs b := by
  simp [countHeightNotifs, List.countP_append]

/-- Behaviour of the notification block when a previous size is cached:
no events when the size is unchanged; otherwise exactly one `resize`
carrying the new dimensions and a width/height notification for exactly
the changed dimension(s). -/
theorem size_change_events_spec (old new : Size) :
    (old = new → size_change_events (some old) new = [])
    ∧ (old ≠ new →
        countResize (size_change_events (some old) new) = 1
        ∧ Ev.resize new.width new.height ∈ size_change_events (some old) new
        ∧ countWidthNotifs (size_change_events (some old) new)
            = (if new.width = old.width then 0 else 1)
        ∧ countHeightNotifs (size_change_events (some old) new)
            = (if new.height = old.height then 0 else 1)) := by
  constructor
  · intro h; simp [size_change_events, h]
  · intro h
    by_cases hw : new.width = old.width <;> by_cases hh : new.height = old.height
    · exact absurd (show old = new by cases old; cases new; simp_all) h
    all_goals
      simp [size_change_events, h, hw, hh, countResize, countWidthNotifs,
        countHeightNotifs, List.countP_append, List.countP_cons]

/-- Claim C3: during a reconciliation with a previously cached size, a
re-queried geometry differing only in position (width and height
unchanged) emits no resize event and no width/height notification; when
width or height differs, exactly the changed dimension(s) are notified
individually and exactly one resize event fires carrying the new width
and height. -/
theorem update_size_notification_discipline (s : State) (env : Env)
    (x : Nat) (old : Size) (g : GeomReply)
    (hx : s.xid = some x) (hc : s.connection = some ())
    (hu : s.needs_size_update = true) (hs : s.size = some old)
    (hg : env.geometry = Except.ok g) :
    ((g.width = old.width ∧ g.height = old.height) →
        countResize (update_size_if_needed s env).2.2.1 = 0
        ∧ countWidthNotifs (update_size_if_needed s env).2.2.1 = 0
        ∧ countHeightNotifs (update_size_if_needed s env).2.2.1 = 0)
    ∧ (¬(g.width = old.width ∧ g.height = old.height) →
        countResize (update_size_if_needed s env).2.2.1 = 1
        ∧ Ev.resize g.width g.height ∈ (update_size_if_needed s env).2.2.1
        ∧ countWidthNotifs (update_size_if_needed s env).2.2.1
            = (if g.width = old.width then 0 else 1)
        ∧ countHeightNotifs (update_size_if_needed s env).2.2.1
            = (if g.height = old.height then 0 else 1)) := by
  obtain ⟨tail, htail, t1, t2, t3⟩ :
      ∃ tail, (update_size_if_needed s env).2.2.1
          = size_change_events (some old) ⟨g.width, g.height⟩ ++ tail
        ∧ countResize tail = 0 ∧ countWidthNotifs tail = 0
        ∧ countHeightNotifs tail = 0 := by
    rcases hpv : env.property_values with m | vals
    · exact ⟨[], by simp [update_size_if_needed, get_size, get_connection,
        get_window_visibility, hx, hc, hu, hs, hg, hpv], rfl, rfl, rfl⟩
    · by_cases hany : (vals.any (fun v => v == 324)) = true
      · by_cases hv : WindowVisibility.Hidden = s.visibility
        · exact ⟨[], by simp [update_size_if_needed, get_size, get_connection,
            get_window_visibility, hx, hc, hu, hs, hg, hpv, hany, hv],
            rfl, rfl, rfl⟩
        · exact ⟨[Ev.notifyVisibility .Hidden],
            by simp [update_size_if_needed, get_size, get_connection,
              get_window_visibility, hx, hc, hu, hs, hg, hpv, hany, hv],
            by decide, by decide, by decide⟩
      · by_cases hv : WindowVisibility.Visible = s.visibility
        · exact ⟨[], by simp [update_size_if_needed, get_size, get_connection,
            get_window_visibility, hx, hc, hu, hs, hg, hpv, hany, hv],
            rfl, rfl, rfl⟩
        · exact ⟨[Ev.notifyVisibility .Visible],
            by simp [update_size_if_needed, get_size, get_connection,
              get_window_visibility, hx, hc, hu, hs, hg, hpv, hany, hv],
            by decide, by decide, by decide⟩
  constructor
  · rintro ⟨hw, hh⟩
    have hold : old = (⟨g.width, g.height⟩ : Size) := by
      cases old; simp_all
    have hz := (size_change_events_spec old ⟨g.width, g.height⟩).1 hold
    simp [htail, hz, countResize_append, countWidthNotifs_append,
      countHeightNotifs_append, t1, t2, t3]
  · intro hne
    have hold : old ≠ (⟨g.width, g.height⟩ : Size) := by
      intro he
      exact hne ⟨by rw [he], by rw [he]⟩
    obtain ⟨q1, q2, q3, q4⟩ :=
      (size_change_events_spec old ⟨g.width, g.height⟩).2 hold
    refine ⟨?_, ?_, ?_, ?_⟩
    · simp [htail, countResize_append, t1, q1]
    · rw [htail]
      exact List.mem_append_left _ q2
    · simp [htail, countWidthNotifs_append, t2]
      exact q3
    · simp [htail, countHeightNotifs_append, t3]
      exact q4

/-- Reconciliation state with an already cached 10×10 size and a dirty
flag, for the C3 witness. -/
def reconcileState : State :=
  { connection := some (), xid := some 7, needs_size_update := true,
    size := some ⟨10, 10⟩ }

/-- Server replies reporting a 10×20 geometry (height changed), for the
C3 witness. -/
def reconcileEnv : Env :=
  { geometry := .ok ⟨5, 5, 10, 20⟩, property_values := .ok [1],
    image_data := .ok [], negotiate_ok := .ok (),
    pointer := .ok ⟨true, 0, 0⟩ }

/-- Witness for C3: a height-only change fires exactly one resize, no
width notification, and one height notification. -/
theorem update_size_notification_discipline_witness :
    countResize (update_size_if_needed reconcileState reconcileEnv).2.2.1 = 1
    ∧ countWidthNotifs
        (update_size_if_needed reconcileState reconcileEnv).2.2.1 = 0
    ∧ countHeightNotifs
        (update_size_if_needed reconcileState reconcileEnv).2.2.1 = 1 := by
  obtain ⟨q1, _q2, q3, q4⟩ :=
    (update_size_notification_discipline reconcileState reconcileEnv 7
      ⟨10, 10⟩ ⟨5, 5, 10, 20⟩ rfl rfl rfl rfl rfl).2 (by decide)
  exact ⟨q1, by simpa using q3, by simpa using q4⟩

/-- Claim C8 (amended): in a produce call with the cursor flag enabled and
a successful pointer query, an out-of-bounds (or different-screen)
pointer leaves the captured frame untouched — it is returned and cached
unchanged, nothing is drawn — while an in-bounds pointer aborts the call
at the unimplemented-cursor `todo!()` stub. -/
theorem create_cursor_stub (s : State) (env : Env) (x : Nat) (sz : Size)
    (p : Position) (data : List Nat) (reply : PointerReply)
    (hx : s.xid = some x) (hc : s.connection = some ())
    (hn : s.needs_size_update = false) (hs : s.size = some sz)
    (hp : s.position = some p) (ht : s.last_frame_time = none)
    (hcu : s.show_cursor = true)
    (himg : env.image_data = Except.ok data)
    (hptr : env.pointer = Except.ok reply)
    (hw : sz.width ≤ 32767) (hh : sz.height ≤ 32767) :
    (cursorHit p sz reply = false →
        (create s env).res = CreateRes.newBuffer ⟨data, s.frame_duration⟩
        ∧ (create s env).state.last_frame
            = some ⟨data, s.frame_duration⟩)
    ∧ (cursorHit p sz reply = true →
        (create s env).res = CreateRes.panic) := by
  constructor <;> intro hhit <;>
    simp [create, update_size_if_needed, get_frame, get_connection,
      cursor_is_in_bounds, hx, hc, hn, hs, hp, ht, hcu, himg, hptr, hhit,
      Nat.not_lt.mpr hw, Nat.not_lt.mpr hh]

/-- Produce state with the cursor flag enabled and a cached 100×100
window at position (10, 10), for the C8 theorems. -/
def cursorState : State :=
  { connection := some (), xid := some 7, show_cursor := true,
    needs_size_update := false, position := some ⟨10, 10⟩,
    size := some ⟨100, 100⟩, frame_duration := 33 }

/-- Server replies with a successful capture and the pointer inside the
window (root coordinates (50, 50)), for the C8 counterexample. -/
def cursorEnvIn : Env :=
  { geometry := .ok ⟨10, 10, 100, 100⟩, property_values := .ok [1],
    image_data := .ok [5], negotiate_ok := .ok (),
    pointer := .ok ⟨true, 50, 50⟩ }

/-- Server replies identical to `cursorEnvIn` but with the pointer far
outside the window, for the C8 witness. -/
def cursorEnvOut : Env :=
  { cursorEnvIn with pointer := .ok ⟨true, 500, 500⟩ }

/-- Claim C8 fails as stated: with the cursor flag enabled and the
pointer reported in bounds on the same screen, the call aborts at the
`todo!()` stub instead of returning the captured frame. -/
theorem create_cursor_in_bounds_aborts :
    (create cursorState cursorEnvIn).res = CreateRes.panic
    ∧ (create cursorState cursorEnvIn).res
        ≠ CreateRes.newBuffer ⟨[5], 33⟩ := by
  decide

/-- Witness for the amended C8: an out-of-bounds pointer leaves the
produced frame untouched. -/
theorem create_cursor_stub_witness :
    (create cursorState cursorEnvOut).res = CreateRes.newBuffer ⟨[5], 33⟩ :=
  ((create_cursor_stub cursorState cursorEnvOut 7 ⟨100, 100⟩ ⟨10, 10⟩ [5]
      ⟨true, 500, 500⟩ rfl rfl rfl rfl rfl rfl rfl rfl rfl
      (by decide) (by decide)).1 (by decide)).1

end XImageRedux
